import Mathlib

/-!
# Verification of the data-transformation core of the stock dashboard

Shallow embedding of the repository's Python/pandas pipeline:

* `page_1.py` — ticker loader (`carregar_tickers_acoes`), price fetcher
  (`carregar_dados`), symbol/date selection (`configurar_sidebar`) and the
  period performance calculator (`calcular_performance`).
* `page_2.py` — monthly variation calculator (`calcular_variacao_mensal`)
  and the combined symbol/date/direction filter (`configurar_filtros`).

Modelling conventions:

* A price cell is `Option ℚ`: `none` models a pandas `NaN` (missing value);
  `some q` a finite closing price.  Rationals stand in for IEEE doubles —
  every arithmetic operation used by the code (division, subtraction,
  comparison with zero) is exact on the inputs the claims are about.
* A date is a `Nat` in ISO numeral form `y*10000 + m*100 + d`
  (e.g. `20250131`); on valid dates `Nat` order coincides with calendar
  order, which is the only property the code uses.
* A `DF` (DataFrame) is an index (list of dates) plus labelled columns;
  the well-formedness predicate `DF.WF` says every column has one cell per
  index entry — exactly pandas's rectangular-frame invariant.
* Streamlit calls that merely display (`st.error`, `st.info`, …) are
  modelled as emitted `UIMsg` values; widget results (multiselect, sliders,
  date inputs, checkboxes) are inputs of the embedded functions.
* A Python exception escaping the function is modelled by `Except.error`;
  a normal return is `Except.ok`.
-/

namespace ProjetoStreamlit

/-- A DataFrame cell: `none` is pandas `NaN`. -/
abbrev Cell := Option ℚ

/-- A pandas DataFrame: a date index and labelled columns of cells. -/
structure DF where
  idx  : List Nat
  cols : List (String × List Cell)
deriving DecidableEq

/-- `pd.DataFrame()` — the empty frame. -/
def DF.vazio : DF := ⟨[], []⟩

/-- Rectangularity: every column has exactly one cell per index entry. -/
def DF.WF (df : DF) : Prop := ∀ c ∈ df.cols, c.2.length = df.idx.length

instance (df : DF) : Decidable df.WF := by
  unfold DF.WF; infer_instance

/-- The column labels of a frame, in order. -/
def DF.nomes (df : DF) : List String := df.cols.map Prod.fst

deriving instance DecidableEq for Except

/-- A displayed Streamlit message. -/
inductive UIMsg where
  | error (s : String)
  | info (s : String)
  | warning (s : String)
deriving DecidableEq

/-! ## Generic list helpers (boolean row filtering and positional access) -/

/-- Keep the elements of `l` whose position is marked `true` in `keep`
(the common core of `.loc` slicing and `dropna`). -/
def filterByKeep : List Bool → List α → List α
  | b :: bs, x :: xs => if b then x :: filterByKeep bs xs else filterByKeep bs xs
  | _, _ => []

/-- The positions marked `true` in a boolean mask, in increasing order. -/
def keptPositions : List Bool → List Nat
  | [] => []
  | b :: bs =>
    if b then 0 :: (keptPositions bs).map (· + 1)
    else (keptPositions bs).map (· + 1)

/-! ## page_1.py — ticker loader -/

/-- `carregar_tickers_acoes` (page_1.py:14-33).  The input models the local
CSV file `IBOV.csv`: `some codigos` is the contents of its `"Código"` column
in file order, `none` is `FileNotFoundError`.  Each code gets the fixed
Yahoo-Finance suffix `".SA"`; a missing file is reported via `st.error` /
`st.info` and yields the empty list. -/
def carregar_tickers_acoes (arquivo : Option (List String)) :
    List UIMsg × List String :=
  match arquivo with
  | some codigos => ([], codigos.map (fun item => item ++ ".SA"))
  | none =>
    ([UIMsg.error "Erro: O arquivo 'IBOV.csv' não foi encontrado.",
      UIMsg.info "Por favor, certifique-se de que o arquivo está na mesma pasta que o seu script Streamlit."],
     [])

/-! ## page_1.py — price fetcher -/

/-- The provider's response to `yf.download` (page_1.py:47-54): a shared
date index and, for each symbol the provider resolved, its `'Close'`
series.  A symbol the provider failed on is simply absent from `series`. -/
structure Resposta where
  idx : List Nat
  series : List (String × List Cell)
deriving DecidableEq

/-- Symbols present in the provider's response
(`dados_brutos.columns.levels[0]`). -/
def Resposta.simbolos (resp : Resposta) : List String := resp.series.map Prod.fst

/-- `dados_brutos[ticker]['Close']` for a ticker present in the response. -/
def Resposta.lookup (resp : Resposta) (t : String) : Option (List Cell) :=
  (resp.series.find? (fun p => p.1 == t)).map Prod.snd

/-- `fechamento[ticker] = serie`: pandas column assignment — replaces the
column when the label already exists, appends it otherwise. -/
def atribuirColuna (acc : List (String × List Cell)) (t : String)
    (s : List Cell) : List (String × List Cell) :=
  if acc.any (fun c => c.1 == t) then
    acc.map (fun c => if c.1 == t then (t, s) else c)
  else acc ++ [(t, s)]

/-- The `for ticker in empresas` loop of `carregar_dados` (page_1.py:57-60):
assign the `'Close'` column of each successfully fetched ticker. -/
def montarFechamento (resp : Resposta) :
    List String → List (String × List Cell) → List (String × List Cell)
  | [], acc => acc
  | t :: ts, acc =>
    match resp.lookup t with
    | some s => montarFechamento resp ts (atribuirColuna acc t s)
    | none => montarFechamento resp ts acc

/-- `carregar_dados` (page_1.py:36-61).  Starts from `pd.DataFrame()` and
assigns one `'Close'` column per resolved ticker; if no column is ever
assigned the frame keeps its initial empty index. -/
def carregar_dados (empresas : List String) (resp : Resposta) : DF :=
  let cols := montarFechamento resp empresas []
  { idx := if cols.isEmpty then [] else resp.idx, cols := cols }

/-! ## Frame operations shared by both pages -/

/-- `df[nomes]` — column selection by label.  In this pipeline the requested
labels always come from the frame's own columns (multiselect options), and
column labels are unique by construction of `carregar_dados`, so first-match
lookup is exact. -/
def selectCols (df : DF) (nomes : List String) : DF :=
  { idx := df.idx,
    cols := nomes.filterMap (fun n =>
      (df.cols.find? (fun c => c.1 == n)).map (fun c => (n, c.2))) }

/-- `df.rename(columns={velho: novo})` — returns a new frame. -/
def renameCol (df : DF) (velho novo : String) : DF :=
  { df with cols := df.cols.map (fun c => if c.1 == velho then (novo, c.2) else c) }

/-- `df.loc[a:b]` — label slicing on a sorted date index keeps exactly the
rows with `a ≤ date ≤ b` (both endpoints inclusive). -/
def locSlice (df : DF) (a b : Nat) : DF :=
  let keep := df.idx.map (fun d => decide (a ≤ d) && decide (d ≤ b))
  { idx := filterByKeep keep df.idx,
    cols := df.cols.map (fun c => (c.1, filterByKeep keep c.2)) }

/-! ## page_1.py — selection (`configurar_sidebar`) -/

/-- `configurar_sidebar` (page_1.py:64-111).  `lista_acoes` is the
multiselect result, `d0`/`d1` the slider interval.  With no selection the
full frame passes through; with exactly one selection the single column is
relabelled `"Close"` and the chosen symbol reported as `acao_unica`.  The
slider bounds are `index.min()`/`index.max()`: on an empty index that
evaluation raises (modelled by `Except.error`), which is the crash path of
claim C5. -/
def configurar_sidebar (dados : DF) (lista_acoes : List String)
    (d0 d1 : Nat) : Except String (DF × List String × Option String) :=
  let par : DF × Option String :=
    if lista_acoes.isEmpty then (dados, none)
    else
      let df := selectCols dados lista_acoes
      if lista_acoes.length == 1 then
        (renameCol df (lista_acoes.headD "") "Close", some (lista_acoes.headD ""))
      else (df, none)
  if par.1.idx.isEmpty then
    Except.error "index.min().to_pydatetime() em índice vazio: a passada de renderização aborta"
  else Except.ok (locSlice par.1 d0 d1, lista_acoes, par.2)

/-! ## page_1.py — performance calculator -/

/-- Markdown colour tag of a performance line. -/
inductive Cor where
  | green
  | red
  | gray
deriving DecidableEq

/-- One line of the performance report, structurally: either a computed
signed percentage with its colour tag, or one of the two explanatory
statuses. -/
inductive Linha where
  | computada (performance : ℚ) (cor : Cor)
  | valorInicialZero
  | insuficiente
deriving DecidableEq

/-- `dados[acao].dropna()` — the symbol's series without missing values. -/
def serieSemNan (df : DF) (acao : String) : List ℚ :=
  (((df.cols.find? (fun c => c.1 == acao)).map Prod.snd).getD []).filterMap id

/-- The per-symbol body of the loop in `calcular_performance`
(page_1.py:142-156): at least 2 clean points, non-zero first value, then
`(last / first) - 1` coloured by sign. -/
def linhaPerformance (s : List ℚ) : Linha :=
  if s.length > 1 then
    let valorInicial := s.headD 0
    let valorFinal := s.getLastD 0
    if valorInicial ≠ 0 then
      let performance := valorFinal / valorInicial - 1
      Linha.computada performance
        (if performance > 0 then Cor.green
         else if performance < 0 then Cor.red else Cor.gray)
    else Linha.valorInicialZero
  else Linha.insuficiente

/-- The initial rename of `calcular_performance` (page_1.py:128-130): with a
single chosen symbol the `"Close"` column is renamed back to it.  (When
`acao_unica` is Python `None` the source would relabel the column to the
`None` object; that call pattern never arises from `configurar_sidebar`,
which sets `acao_unica` exactly when one symbol is chosen, and string labels
cannot represent it, so it is modelled as no rename.) -/
def dadosParaPerf (dados : DF) (lista : List String)
    (acaoUnica : Option String) : DF :=
  if lista.length == 1 then
    match acaoUnica with
    | some a => renameCol dados "Close" a
    | none => dados
  else dados

/-- `calcular_performance` (page_1.py:115-158).  `none` models the early
return `"Nenhuma ação selecionada..."`; otherwise one report line per
chosen symbol, in order. -/
def calcular_performance (dados : DF) (lista : List String)
    (acaoUnica : Option String) : Option (List (String × Linha)) :=
  let d := dadosParaPerf dados lista acaoUnica
  if lista.isEmpty then none
  else some (lista.map (fun acao => (acao, linhaPerformance (serieSemNan d acao))))

/-! ## page_1.py — main -/

/-- `main` of page_1 (page_1.py:174-193), up to presentation: load tickers,
fetch, filter; an `Except.error` from `configurar_sidebar` propagates (the
render pass crashes).  Returns the displayed messages. -/
def page1_main (arquivo : Option (List String)) (resp : Resposta)
    (lista_acoes : List String) (d0 d1 : Nat) : Except String (List UIMsg) :=
  let carga := carregar_tickers_acoes arquivo
  let dados := carregar_dados carga.2 resp
  match configurar_sidebar dados lista_acoes d0 d1 with
  | Except.error e => Except.error e
  | Except.ok (dfil, la, au) =>
    if la.isEmpty then
      Except.ok (carga.1 ++ [UIMsg.info "Por favor, selecione ao menos uma ação na barra lateral para visualizar os dados."])
    else
      let aviso := if dfil.idx.isEmpty then
        [UIMsg.warning "Não foram encontrados dados para os tickers e período selecionados."] else []
      let _ := calcular_performance dfil la au
      Except.ok (carga.1 ++ aviso)

/-! ## page_2.py — monthly variation calculator -/

/-- The calendar month of a date, as a linear month count
`year * 12 + (month - 1)`. -/
def mesDe (d : Nat) : Nat := (d / 10000) * 12 + (d / 100) % 100 - 1

/-- Days of a month, Gregorian calendar (leap-year aware). -/
def diasNoMes (y m : Nat) : Nat :=
  if m == 2 then
    (if (y % 4 == 0 && y % 100 != 0) || y % 400 == 0 then 29 else 28)
  else if m == 4 || m == 6 || m == 9 || m == 11 then 30 else 31

/-- The month-end date labelling month `k` in a `'ME'` resample. -/
def fimDeMes (k : Nat) : Nat :=
  (k / 12) * 10000 + (k % 12 + 1) * 100 + diasNoMes (k / 12) (k % 12 + 1)

/-- Smallest month appearing in the index. -/
def mesMin (df : DF) : Nat :=
  df.idx.foldl (fun a d => min a (mesDe d)) (mesDe (df.idx.headD 0))

/-- Largest month appearing in the index. -/
def mesMax (df : DF) : Nat :=
  df.idx.foldl (fun a d => max a (mesDe d)) (mesDe (df.idx.headD 0))

/-- The consecutive months covered by the index, first to last — one output
row per calendar month, exactly as `resample('ME')` spans `min..max`. -/
def mesesDe (df : DF) : List Nat :=
  List.range' (mesMin df) (mesMax df - mesMin df + 1)

/-- `resample('ME').last()` on one column: the last non-missing value among
the rows falling in month `k` (index order = date order on the sorted
indexes this pipeline produces); `none` when the month has none. -/
def ultimaNoMes (idx : List Nat) (v : List Cell) (k : Nat) : Cell :=
  ((idx.zip v).filter (fun p => mesDe p.1 == k)).foldl
    (fun acc p => if p.2.isSome then p.2 else acc) none

/-- `dados.resample('ME').last()` (page_2.py:27). -/
def resampleMensal (df : DF) : DF :=
  if df.idx.isEmpty then DF.vazio
  else
    { idx := (mesesDe df).map fimDeMes,
      cols := df.cols.map (fun c => (c.1, (mesesDe df).map (ultimaNoMes df.idx c.2))) }

/-- One cell of `pct_change(fill_method=None)`: `cur / prev - 1` when both
the row and the immediately preceding row are present, `NaN` otherwise.
(A zero previous value gives an IEEE infinity, which the rational carrier
cannot represent; it is modelled as missing.  No claim touches that cell.) -/
def pctCell (ant cur : Cell) : Cell :=
  match ant, cur with
  | some a, some b => if a = 0 then none else some (b / a - 1)
  | _, _ => none

/-- `pct_change(fill_method=None)` on one column: first row missing, then
each row against the immediately preceding row. -/
def pctChangeCol (l : List Cell) : List Cell :=
  match l with
  | [] => []
  | _ :: t => none :: List.zipWith pctCell l t

/-- `pd.to_datetime` on an index: the identity on values that already are
datetimes — which the `PriceTable` date index of this model always is. -/
def pdToDatetime (idx : List Nat) : List Nat := idx

/-- `calcular_variacao_mensal` (page_2.py:15-29), in state-passing form.
The first component is the state of the *argument* frame after the call:
line 25 (`dados.index = pd.to_datetime(dados.index)`) assigns the argument's
index in place, and it is the only statement in the four pipeline steps that
writes to an argument.  The second component is the returned variation
frame. -/
def calcular_variacao_mensal_est (dados : DF) : DF × DF :=
  let dados' : DF := { dados with idx := pdToDatetime dados.idx }
  let df_mensal := resampleMensal dados'
  (dados', { df_mensal with cols := df_mensal.cols.map (fun c => (c.1, pctChangeCol c.2)) })

/-- The value returned by `calcular_variacao_mensal`. -/
def calcular_variacao_mensal (dados : DF) : DF :=
  (calcular_variacao_mensal_est dados).2

/-! ## page_2.py — filters (`configurar_filtros`) -/

/-- The direction mask of one cell (page_2.py:103-109): `mascara` starts
`False` and is or-ed with each checked predicate; pandas comparisons on
`NaN` are `False`. -/
def mascaraBool (filtros : List String) (x : Cell) : Bool :=
  let m := false
  let m := if "Alta" ∈ filtros then
    m || (match x with | some v => decide (v > 0) | none => false) else m
  let m := if "Baixa" ∈ filtros then
    m || (match x with | some v => decide (v < 0) | none => false) else m
  let m := if "Estável" ∈ filtros then
    m || (match x with | some v => decide (v = 0) | none => false) else m
  m

/-- `df.where(mascara)`: keep the cell where the mask holds, `NaN` elsewhere. -/
def mascaraCell (filtros : List String) (x : Cell) : Cell :=
  if mascaraBool filtros x then x else none

/-- The `if filtros_variacao:` block (page_2.py:102-111): mask only when at
least one direction is checked. -/
def aplicarMascara (filtros : List String) (df : DF) : DF :=
  if filtros.isEmpty then df
  else { df with cols := df.cols.map (fun c => (c.1, c.2.map (mascaraCell filtros))) }

/-- Row `i` has at least one non-missing value (pandas row `count > 0`). -/
def filaTemDado (cols : List (String × List Cell)) (i : Nat) : Bool :=
  cols.any (fun c => (c.2.getD i none).isSome)

/-- `df.dropna(how='all')` (page_2.py:112): drop the rows all of whose
values are missing. -/
def dropnaTotal (df : DF) : DF :=
  let keep := (List.range' 0 df.idx.length).map (filaTemDado df.cols)
  { idx := filterByKeep keep df.idx,
    cols := df.cols.map (fun c => (c.1, filterByKeep keep c.2)) }

/-- Default of the page-2 multiselect (page_2.py:47-48): all columns when
nothing is chosen. -/
def selecaoEfetiva (dv : DF) (escolhidas : List String) : List String :=
  if escolhidas.isEmpty then dv.nomes else escolhidas

/-- `configurar_filtros` (page_2.py:32-112).  `escolhidas` is the
multiselect result, `dataInicial`/`dataFinal` the two date inputs,
`filtros` the checked direction boxes.  The widget bounds are
`index.min()`/`index.max()` (page_2.py:56-57): on an empty index that
evaluation raises, modelled by `Except.error`.  The two `st.date_input`
widgets always return a date (a `datetime.date` is truthy), so the
`st.warning` branch of line 89-91 is unreachable and not modelled.
`dataInicial > dataFinal` reports `st.error` and returns `pd.DataFrame()`
— a normal return, not an exception. -/
def configurar_filtros (dv : DF) (escolhidas : List String)
    (dataInicial dataFinal : Nat) (filtros : List String) :
    Except String (List UIMsg × DF) :=
  let dfil := selectCols dv (selecaoEfetiva dv escolhidas)
  if dfil.idx.isEmpty then
    Except.error "index.min().to_pydatetime() em índice vazio: a passada de renderização aborta"
  else if dataInicial > dataFinal then
    Except.ok ([UIMsg.error "A data inicial não pode ser posterior à data final"], DF.vazio)
  else
    Except.ok ([], dropnaTotal (aplicarMascara filtros (locSlice dfil dataInicial dataFinal)))

/-! ## page_2.py — main -/

/-- `main` of page_2 (page_2.py:136-155), up to presentation: the empty
ticker list returns immediately; an empty fetched frame reports `st.error`
and returns; otherwise variation, filters, dashboard. -/
def page2_main (arquivo : Option (List String)) (resp : Resposta)
    (escolhidas : List String) (d0 d1 : Nat) (filtros : List String) :
    Except String (List UIMsg) :=
  let carga := carregar_tickers_acoes arquivo
  if carga.2.isEmpty then Except.ok carga.1
  else
    let dados := carregar_dados carga.2 resp
    if dados.idx.isEmpty || dados.cols.isEmpty then
      Except.ok (carga.1 ++ [UIMsg.error "Não foi possível carregar os dados das ações"])
    else
      match configurar_filtros (calcular_variacao_mensal dados) escolhidas d0 d1 filtros with
      | Except.error e => Except.error e
      | Except.ok (ms, _) => Except.ok (carga.1 ++ ms)

/-! ## State-passing forms of the remaining pipeline steps (claim C6)

The first component records the state of the argument frame when the call
returns.  `configurar_sidebar`, `configurar_filtros` and
`calcular_performance` contain no assignment to an attribute of their frame
argument — every pandas call they make (`[]`, `rename`, `.loc`, `where`,
`dropna`, `resample`, `pct_change`) returns a new object — so their
translation leaves the argument state equal to the input. -/

def configurar_sidebar_est (dados : DF) (lista_acoes : List String)
    (d0 d1 : Nat) :
    DF × Except String (DF × List String × Option String) :=
  (dados, configurar_sidebar dados lista_acoes d0 d1)

def configurar_filtros_est (dv : DF) (escolhidas : List String)
    (dataInicial dataFinal : Nat) (filtros : List String) :
    DF × Except String (List UIMsg × DF) :=
  (dv, configurar_filtros dv escolhidas dataInicial dataFinal filtros)

def calcular_performance_est (dados : DF) (lista : List String)
    (acaoUnica : Option String) : DF × Option (List (String × Linha)) :=
  (dados, calcular_performance dados lista acaoUnica)

/-! ## Claim-side restatements

These definitions follow the *spec's wording* of the claims; the claim
theorems compare them to the source-side definitions above. -/

/-- Spec wording of the per-symbol performance status (claim C1): fewer
than 2 remaining observations → insufficient-data; first remaining
observation zero → zero-baseline; else computed, value `(last / first) − 1`,
tagged positive / negative / neutral by sign. -/
def statusSpec (limpa : List ℚ) : Linha :=
  if limpa.length < 2 then Linha.insuficiente
  else if limpa.headD 0 = 0 then Linha.valorInicialZero
  else
    Linha.computada (limpa.getLastD 0 / limpa.headD 0 - 1)
      (if 0 < limpa.getLastD 0 / limpa.headD 0 - 1 then Cor.green
       else if limpa.getLastD 0 / limpa.headD 0 - 1 < 0 then Cor.red
       else Cor.gray)

/-- Spec wording of the month value (claim C2): the last available (i.e.
non-missing) observation among the column's dates falling in month `k`;
missing when the month has zero observations. -/
def ultimaDisponivelSpec (idx : List Nat) (v : List Cell) (k : Nat) : Cell :=
  (((idx.zip v).filter (fun p => mesDe p.1 == k)).filterMap Prod.snd).getLast?

/-- Spec wording of one variation cell (claim C2): percentage change of the
month-end value relative to the immediately preceding month-end value,
missing when either is missing. -/
def variacaoSpec (ant cur : Cell) : Cell :=
  ant.bind (fun a => cur.bind (fun b => if a = 0 then none else some (b / a - 1)))

/-- Spec wording of the direction predicate (claim C3): the cell's value
satisfies at least one active predicate among Alta (>0), Baixa (<0),
Estável (=0); a missing cell satisfies none. -/
def satisfazAlgum (filtros : List String) (x : Cell) : Bool :=
  match x with
  | some v =>
    ("Alta" ∈ filtros ∧ v > 0) ∨ ("Baixa" ∈ filtros ∧ v < 0) ∨
      ("Estável" ∈ filtros ∧ v = 0)
  | none => false

/-- Spec wording of the masking step (claim C3): with at least one active
predicate a cell is retained iff it satisfies one of them, otherwise it
becomes missing; with zero active predicates no masking occurs. -/
def mascaraSpec (filtros : List String) (df : DF) : DF :=
  if filtros.isEmpty then df
  else { df with cols := df.cols.map (fun c =>
    (c.1, c.2.map (fun x => if satisfazAlgum filtros x then x else none))) }

/-- Spec wording of the row dropping (claims C3/C10): rows that are
entirely missing across all columns are dropped. -/
def dropnaSpec (df : DF) : DF :=
  let keep := (List.range' 0 df.idx.length).map
    (fun i => !(df.cols.all (fun c => (c.2.getD i none).isNone)))
  { idx := filterByKeep keep df.idx,
    cols := df.cols.map (fun c => (c.1, filterByKeep keep c.2)) }

/-- The column labels produced by the `carregar_dados` loop: the input
tickers that the provider resolved, first occurrences only, in input
order (`vistos` are the labels already assigned). -/
def novosNomes (resp : Resposta) : List String → List String → List String
  | _, [] => []
  | vistos, t :: ts =>
    if (resp.lookup t).isSome ∧ t ∉ vistos then
      t :: novosNomes resp (vistos ++ [t]) ts
    else novosNomes resp vistos ts

/-- The frame has, at some row labelled `dte`, at least one non-missing
cell (claim C10's provenance predicate). -/
def DF.temDadoEm (df : DF) (dte : Nat) : Prop :=
  ∃ c ∈ df.cols, ∃ j, j < df.idx.length ∧ df.idx.getD j 0 = dte ∧
    (c.2.getD j none).isSome = true

/-! ## Concrete fixtures used by the witness theorems -/

/-- A provider response resolving `"A"` and `"C"` (with a gap) but not
`"B"`; `"D"` was returned by the provider but never requested. -/
def exResp : Resposta :=
  ⟨[1, 2], [("A", [some 1, some 2]), ("C", [some 3, none]), ("D", [none, none])]⟩

/-- A one-symbol price table: `"P"` closes at 10 then 20. -/
def exP : DF := ⟨[10, 20], [("P", [some 10, some 20])]⟩

/-- Daily closes across January and February 2025: January ends at 100,
February at 110, with mid-month observations that the resample must skip. -/
def exDia : DF :=
  ⟨[20250105, 20250131, 20250210, 20250228],
   [("X", [some 95, some 100, some 105, some 110])]⟩

/-- Daily closes with an empty month in the middle (January and March
observed, February empty). -/
def exGap : DF := ⟨[20250131, 20250331], [("X", [some 100, some 120])]⟩

/-- A single-column monthly variation table with one rising, one falling
and one flat month. -/
def exVar : DF := ⟨[101, 102, 103], [("X", [some 1, some (-1), some 0])]⟩

/-- Daily closes doubling from January to February 2025 (variation `+100%`,
an integer, keeping every downstream check computable). -/
def exDia2 : DF := ⟨[20250131, 20250228], [("X", [some 100, some 200])]⟩

/-- A price table whose symbol `"A"` has a leading missing value and then
the cleaned series `[10, 20]` of claim C1. -/
def exLimpa : DF := ⟨[1, 2, 3], [("A", [none, some 10, some 20])]⟩

/-! # Theorems

## Generic list lemmas -/

theorem getD_cons_succ (x : α) (xs : List α) (i : Nat) (d : α) :
    (x :: xs).getD (i + 1) d = xs.getD i d := rfl

theorem getD_of_le (l : List α) (i : Nat) (d : α) (h : l.length ≤ i) :
    l.getD i d = d := by
  induction l generalizing i with
  | nil => cases i <;> rfl
  | cons x xs ih =>
    cases i with
    | zero => simp at h
    | succ j => simpa using ih j (by simpa using h)

theorem getD_map_of_lt (f : α → β) (l : List α) (i : Nat) (d : α) (d' : β)
    (h : i < l.length) : (l.map f).getD i d' = f (l.getD i d) := by
  induction l generalizing i with
  | nil => simp at h
  | cons x xs ih =>
    cases i with
    | zero => rfl
    | succ j => simpa using ih j (by simpa using h)

theorem getD_mem_of_lt (l : List α) (i : Nat) (d : α) (h : i < l.length) :
    l.getD i d ∈ l := by
  induction l generalizing i with
  | nil => simp at h
  | cons x xs ih =>
    cases i with
    | zero => simp [List.getD]
    | succ j => exact List.mem_cons_of_mem x (ih j (by simpa using h))

theorem keptPositions_lt (keep : List Bool) :
    ∀ j ∈ keptPositions keep, j < keep.length := by
  induction keep with
  | nil => intro j hj; simp [keptPositions] at hj
  | cons b bs ih =>
    intro j hj
    simp only [keptPositions] at hj
    by_cases hb : b
    · rw [if_pos hb] at hj
      rcases List.mem_cons.mp hj with h0 | hmem
      · subst h0; simp
      · rcases List.mem_map.mp hmem with ⟨j', hj', hadd⟩
        have := ih j' hj'
        simp only [List.length_cons]; omega
    · rw [if_neg hb] at hj
      rcases List.mem_map.mp hj with ⟨j', hj', hadd⟩
      have := ih j' hj'
      simp only [List.length_cons]; omega

theorem keptPositions_true (keep : List Bool) :
    ∀ j ∈ keptPositions keep, keep.getD j false = true := by
  induction keep with
  | nil => intro j hj; simp [keptPositions] at hj
  | cons b bs ih =>
    intro j hj
    simp only [keptPositions] at hj
    by_cases hb : b
    · rw [if_pos hb] at hj
      rcases List.mem_cons.mp hj with h0 | hmem
      · subst h0; simpa using hb
      · rcases List.mem_map.mp hmem with ⟨j', hj', hadd⟩
        subst hadd
        simpa [getD_cons_succ] using ih j' hj'
    · rw [if_neg hb] at hj
      rcases List.mem_map.mp hj with ⟨j', hj', hadd⟩
      subst hadd
      simpa [getD_cons_succ] using ih j' hj'

/-- `filterByKeep` picks out exactly the kept positions (for aligned lists).
The default `d` is irrelevant because all kept positions are in range. -/
theorem filterByKeep_eq_map (keep : List Bool) (l : List α) (d : α)
    (h : keep.length = l.length) :
    filterByKeep keep l = (keptPositions keep).map (fun j => l.getD j d) := by
  induction keep generalizing l with
  | nil => cases l <;> simp [filterByKeep, keptPositions] at h ⊢
  | cons b bs ih =>
    cases l with
    | nil => simp at h
    | cons x xs =>
      have h' : bs.length = xs.length := by simpa using h
      by_cases hb : b
      · simp only [filterByKeep, hb, if_true, keptPositions, List.map_cons, List.map_map]
        refine congrArg (x :: ·) ?_
        rw [ih xs h']
        simp [Function.comp, getD_cons_succ]
      · simp only [filterByKeep, hb, if_false, keptPositions, List.map_map]
        rw [ih xs h']
        simp [Function.comp, getD_cons_succ]

theorem filterByKeep_length (keep : List Bool) (l : List α) (d : α)
    (h : keep.length = l.length) :
    (filterByKeep keep l).length = (keptPositions keep).length := by
  rw [filterByKeep_eq_map keep l d h, List.length_map]


/-! ## Claim C8 — ticker loader -/

/-- C8: for every ticker file content, `load_symbols` returns the codes of
the `"Código"` column each with the fixed exchange suffix `".SA"` appended,
in file order; when the file is absent it returns an empty sequence (not an
error value) after reporting a user-facing error. -/
theorem C8_load_symbols (codigos : List String) :
    carregar_tickers_acoes (some codigos) = ([], codigos.map (fun item => item ++ ".SA")) ∧
    (carregar_tickers_acoes none).2 = [] ∧
    UIMsg.error "Erro: O arquivo 'IBOV.csv' não foi encontrado." ∈ (carregar_tickers_acoes none).1 := by
  refine ⟨rfl, rfl, ?_⟩
  simp [carregar_tickers_acoes]

/-! ## Claim C7 — fetch result columns -/

theorem atribuirColuna_nomes (acc : List (String × List Cell)) (t : String)
    (s : List Cell) :
    (atribuirColuna acc t s).map Prod.fst =
      if t ∈ acc.map Prod.fst then acc.map Prod.fst
      else acc.map Prod.fst ++ [t] := by
  unfold atribuirColuna
  by_cases h : t ∈ acc.map Prod.fst
  · have hany : acc.any (fun c => c.1 == t) = true := by
      rw [List.any_eq_true]
      rcases List.mem_map.mp h with ⟨c, hc, rfl⟩
      exact ⟨c, hc, by simp⟩
    rw [if_pos hany, if_pos h, List.map_map]
    apply List.map_congr_left
    intro c _
    by_cases hc : c.1 = t
    · simp [hc]
    · simp [hc]
  · have hany : acc.any (fun c => c.1 == t) = false := by
      rw [List.any_eq_false]
      intro c hc
      simp only [beq_iff_eq]
      intro he
      exact h (List.mem_map.mpr ⟨c, hc, he⟩)
    rw [if_neg (by simp [hany]), if_neg h, List.map_append]
    rfl

theorem montarFechamento_nomes (resp : Resposta) (es : List String)
    (acc : List (String × List Cell)) :
    (montarFechamento resp es acc).map Prod.fst =
      acc.map Prod.fst ++ novosNomes resp (acc.map Prod.fst) es := by
  induction es generalizing acc with
  | nil => simp [montarFechamento, novosNomes]
  | cons t ts ih =>
    unfold montarFechamento novosNomes
    cases hl : resp.lookup t with
    | none => rw [ih]; simp [hl]
    | some sr =>
      rw [ih, atribuirColuna_nomes]
      by_cases hmem : t ∈ acc.map Prod.fst
      · rw [if_pos hmem, if_neg (fun hc => hc.2 hmem)]
      · rw [if_neg hmem, if_pos ⟨by simp, hmem⟩]
        simp [List.append_assoc]

theorem novosNomes_sublist (resp : Resposta) (es : List String) :
    ∀ vistos, (novosNomes resp vistos es).Sublist es := by
  induction es with
  | nil => intro vistos; simp [novosNomes]
  | cons t ts ih =>
    intro vistos
    unfold novosNomes
    by_cases h : (resp.lookup t).isSome = true ∧ t ∉ vistos
    · rw [if_pos h]
      exact List.Sublist.cons₂ t (ih (vistos ++ [t]))
    · rw [if_neg h]
      exact List.Sublist.cons t (ih vistos)

theorem novosNomes_resolvido (resp : Resposta) (es : List String) :
    ∀ vistos n, n ∈ novosNomes resp vistos es → (resp.lookup n).isSome = true := by
  induction es with
  | nil => intro vistos n hn; simp [novosNomes] at hn
  | cons t ts ih =>
    intro vistos n hn
    unfold novosNomes at hn
    by_cases h : (resp.lookup t).isSome = true ∧ t ∉ vistos
    · rw [if_pos h] at hn
      rcases List.mem_cons.mp hn with rfl | hn'
      · exact h.1
      · exact ih (vistos ++ [t]) n hn'
    · rw [if_neg h] at hn
      exact ih vistos n hn

theorem lookup_isSome_mem (resp : Resposta) (n : String)
    (h : (resp.lookup n).isSome = true) : n ∈ resp.simbolos := by
  unfold Resposta.lookup at h
  rcases hf : resp.series.find? (fun p => p.1 == n) with _ | p
  · rw [hf] at h; simp at h
  · have hp := List.mem_of_find?_eq_some hf
    have hpn : (p.1 == n) = true := by simpa using List.find?_some hf
    exact List.mem_map.mpr ⟨p, hp, beq_iff_eq.mp hpn⟩

theorem carregar_dados_nomes (empresas : List String) (resp : Resposta) :
    (carregar_dados empresas resp).nomes = novosNomes resp [] empresas := by
  unfold carregar_dados DF.nomes
  simpa using montarFechamento_nomes resp empresas []

/-- C7: for every input symbol list and provider response, the columns of
the fetched table are a subset of the input symbols, appear in the same
relative order as in the input list (a sublist), and a symbol absent from
the provider's response never appears as a column. -/
theorem C7_fetch_columns (empresas : List String) (resp : Resposta) :
    ((carregar_dados empresas resp).nomes).Sublist empresas ∧
    (∀ n ∈ (carregar_dados empresas resp).nomes, n ∈ empresas) ∧
    (∀ n ∈ (carregar_dados empresas resp).nomes, n ∈ resp.simbolos) ∧
    (∀ n, n ∉ resp.simbolos → n ∉ (carregar_dados empresas resp).nomes) := by
  rw [carregar_dados_nomes]
  refine ⟨novosNomes_sublist resp empresas [], ?_, ?_, ?_⟩
  · intro n hn
    exact (novosNomes_sublist resp empresas []).subset hn
  · intro n hn
    exact lookup_isSome_mem resp n (novosNomes_resolvido resp empresas [] n hn)
  · intro n hnr hn
    exact hnr (lookup_isSome_mem resp n (novosNomes_resolvido resp empresas [] n hn))

/-- Witness for C7 at a concrete fetch: the response `exResp` does not
resolve `"B"`, and indeed `"B"` is not a column of the fetched table for
the request `["A", "B", "C"]`. -/
theorem C7_fetch_columns_witness :
    "B" ∉ exResp.simbolos ∧ "B" ∉ (carregar_dados ["A", "B", "C"] exResp).nomes :=
  ⟨by decide, (C7_fetch_columns ["A", "B", "C"] exResp).2.2.2 "B" (by decide)⟩

/-! ## Claim C1 — performance statuses -/

/-- The source's guard structure (`len > 1`, then `valor_inicial != 0`, then
sign of the ratio) computes exactly the spec's three-way status. -/
theorem linhaPerformance_eq_statusSpec (s : List ℚ) :
    linhaPerformance s = statusSpec s := by
  simp only [linhaPerformance, statusSpec]
  by_cases hl : s.length > 1
  · rw [if_pos hl, if_neg (by omega : ¬ s.length < 2)]
    by_cases h0 : s.headD 0 = 0
    · rw [if_neg (not_not_intro h0), if_pos h0]
    · rw [if_pos h0, if_neg h0]
  · rw [if_neg hl, if_pos (by omega : s.length < 2)]

/-- C1: for every chosen symbol, `compute_performance` first drops that
symbol's missing observations and then reports, per symbol and in order:
insufficient-data below 2 observations, zero-baseline on a zero first
observation, else the signed percentage `(last / first) − 1` tagged
positive / negative / neutral by its sign. -/
theorem C1_performance (dados : DF) (lista : List String)
    (acaoUnica : Option String) (h : lista ≠ []) :
    calcular_performance dados lista acaoUnica =
      some (lista.map (fun acao =>
        (acao, statusSpec (serieSemNan (dadosParaPerf dados lista acaoUnica) acao)))) := by
  simp only [calcular_performance]
  rw [if_neg (by simpa using h)]
  simp only [linhaPerformance_eq_statusSpec]

/-- Witness for C1: the cleaned series `[10, 20]` (after a leading missing
value) gives `+100%` tagged positive, `[5, 5]` gives `0%` tagged neutral,
`[0, 5]` gives zero-baseline, and a 1-point series gives
insufficient-data. -/
theorem C1_performance_witness :
    calcular_performance exLimpa ["A"] none =
      some [("A", Linha.computada 1 Cor.green)] ∧
    linhaPerformance [5, 5] = Linha.computada 0 Cor.gray ∧
    linhaPerformance [0, 5] = Linha.valorInicialZero ∧
    linhaPerformance [7] = Linha.insuficiente := by
  refine ⟨?_, ?_, ?_, ?_⟩
  · have h := C1_performance exLimpa ["A"] none (by decide)
    rw [h]
    norm_num [exLimpa, statusSpec, serieSemNan, dadosParaPerf, List.find?,
      List.filterMap_cons]
  · norm_num [linhaPerformance]
  · norm_num [linhaPerformance]
  · norm_num [linhaPerformance]

/-! ## Claim C9 — single-symbol relabeling round trip -/

/-- C9: with exactly one chosen symbol, `select` relabels its column to the
generic `"Close"` name and reports the original symbol; the performance
calculator renames the generic column back to that symbol, and its output
line carries the symbol's original name. -/
theorem C9_roundtrip (dados : DF) (s : String) (d0 d1 : Nat)
    (hne : dados.idx ≠ []) :
    ∃ filtrado : DF,
      configurar_sidebar dados [s] d0 d1 = Except.ok (filtrado, [s], some s) ∧
      filtrado.nomes = (selectCols dados [s]).nomes.map (fun _ => "Close") ∧
      (dadosParaPerf filtrado [s] (some s)).nomes =
        (locSlice (selectCols dados [s]) d0 d1).nomes ∧
      calcular_performance filtrado [s] (some s) =
        some [(s, statusSpec (serieSemNan (renameCol filtrado "Close" s) s))] := by
  refine ⟨locSlice (renameCol (selectCols dados [s]) s "Close") d0 d1, ?_, ?_, ?_, ?_⟩
  · simp [configurar_sidebar, selectCols, renameCol, locSlice, hne]
  · rcases hf : dados.cols.find? (fun c => c.1 == s) with _ | c <;>
      simp [selectCols, renameCol, locSlice, DF.nomes, hf]
  · rcases hf : dados.cols.find? (fun c => c.1 == s) with _ | c <;>
      simp [dadosParaPerf, selectCols, renameCol, locSlice, DF.nomes, hf]
  · simp [calcular_performance, dadosParaPerf, linhaPerformance_eq_statusSpec]

/-- Witness for C9 at the one-column table `exP`: the single symbol `"P"`
is relabelled to `"Close"`, reported back, and the report line is labelled
`"P"` again with the computed `+100%`. -/
theorem C9_roundtrip_witness :
    (∃ filtrado : DF,
      configurar_sidebar exP ["P"] 0 100 = Except.ok (filtrado, ["P"], some "P") ∧
      filtrado.nomes = (selectCols exP ["P"]).nomes.map (fun _ => "Close") ∧
      (dadosParaPerf filtrado ["P"] (some "P")).nomes =
        (locSlice (selectCols exP ["P"]) 0 100).nomes ∧
      calcular_performance filtrado ["P"] (some "P") =
        some [("P", statusSpec (serieSemNan (renameCol filtrado "Close" "P") "P"))]) ∧
    calcular_performance ⟨[10, 20], [("Close", [some 10, some 20])]⟩ ["P"] (some "P") =
      some [("P", Linha.computada 1 Cor.green)] := by
  constructor
  · exact C9_roundtrip exP "P" 0 100 (by decide)
  · norm_num [calcular_performance, dadosParaPerf, renameCol, serieSemNan,
      linhaPerformance, List.find?, List.filterMap_cons]


/-! ## Claim C4 — invalid date range -/

/-- C4: for every monthly table with at least one row and every selected
pair of dates with `date_from > date_to`, `select_monthly` reports a
validation error and returns the empty table — a normal return
(`Except.ok`), never an exception. -/
theorem C4_invalid_dates (dv : DF) (escolhidas : List String)
    (d0 d1 : Nat) (filtros : List String)
    (hne : dv.idx ≠ []) (hord : d0 > d1) :
    configurar_filtros dv escolhidas d0 d1 filtros =
      Except.ok ([UIMsg.error "A data inicial não pode ser posterior à data final"],
        DF.vazio) := by
  simp only [configurar_filtros, selectCols]
  rw [if_neg (by simpa using hne), if_pos hord]

/-- Witness for C4: concrete monthly table, `date_from = 5000 > 0 = date_to`. -/
theorem C4_invalid_dates_witness :
    configurar_filtros exVar [] 5000 0 ["Alta"] =
      Except.ok ([UIMsg.error "A data inicial não pode ser posterior à data final"],
        DF.vazio) :=
  C4_invalid_dates exVar [] 5000 0 ["Alta"] (by decide) (by decide)

/-! ## Claim C3 — direction filter masking -/

/-- Sign trichotomy on rationals, in decidable form. -/
theorem decide_sinal (v : ℚ) :
    (decide (0 < v) || decide (v < 0)) = !decide (0 = v) := by
  rcases lt_trichotomy 0 v with hv | hv | hv
  · simp [hv, hv.ne, lt_asymm hv]
  · simp [← hv]
  · simp [hv, hv.ne', lt_asymm hv]

/-- The three sign predicates together cover every rational. -/
theorem decide_sinal_total (v : ℚ) :
    (decide (0 < v) || (decide (v < 0) || decide (v = 0))) = true := by
  rcases lt_trichotomy 0 v with hv | hv | hv
  · simp [hv]
  · simp [hv.symm]
  · simp [hv]

/-- Complement of "equal to zero" joined with it is exhaustive. -/
theorem decide_zero_compl (v : ℚ) : (!decide (0 = v) || decide (v = 0)) = true := by
  by_cases h : v = 0 <;> simp [h, eq_comm]

/-- The incrementally or-ed mask of the source equals the spec's
"satisfies at least one active predicate" test. -/
theorem mascaraBool_eq_satisfazAlgum (filtros : List String) (x : Cell) :
    mascaraBool filtros x = satisfazAlgum filtros x := by
  cases x with
  | none => simp [mascaraBool, satisfazAlgum]
  | some v =>
    simp only [mascaraBool, satisfazAlgum]
    by_cases hA : "Alta" ∈ filtros <;> by_cases hB : "Baixa" ∈ filtros <;>
      by_cases hE : "Estável" ∈ filtros <;>
      simp [hA, hB, hE, Bool.or_assoc, decide_eq_true_eq, decide_sinal,
        decide_sinal_total, decide_zero_compl]

/-- The masking stage equals its spec restatement, cell for cell. -/
theorem aplicarMascara_eq_spec (filtros : List String) (df : DF) :
    aplicarMascara filtros df = mascaraSpec filtros df := by
  unfold aplicarMascara mascaraSpec mascaraCell
  by_cases he : filtros.isEmpty <;>
    simp [he, mascaraBool_eq_satisfazAlgum]

/-- "Some value present" is the negation of "all values missing". -/
theorem filaTemDado_eq_not_all (cols : List (String × List Cell)) (i : Nat) :
    filaTemDado cols i = !(cols.all (fun c => (c.2.getD i none).isNone)) := by
  induction cols with
  | nil => rfl
  | cons c cs ih =>
    simp only [filaTemDado, List.any_cons, List.all_cons] at ih ⊢
    rw [ih]
    cases hc : (c.2.getD i none) <;> simp

/-- The row-dropping stage equals its spec restatement. -/
theorem dropnaTotal_eq_spec (df : DF) : dropnaTotal df = dropnaSpec df := by
  simp only [dropnaTotal, dropnaSpec]
  have hk : (List.range' 0 df.idx.length).map (filaTemDado df.cols) =
      (List.range' 0 df.idx.length).map
        (fun i => !(df.cols.all (fun c => (c.2.getD i none).isNone))) :=
    List.map_congr_left (fun i _ => filaTemDado_eq_not_all df.cols i)
  rw [hk]

/-- C3: with a valid date range, `select_monthly` returns exactly the spec's
pipeline: select the chosen (default all) columns, slice the date range,
then — iff at least one direction predicate is active — retain a cell iff
its value satisfies at least one active predicate (missing otherwise), and
finally drop the rows that are entirely missing across all columns. -/
theorem C3_direction_filter (dv : DF) (escolhidas : List String)
    (d0 d1 : Nat) (filtros : List String)
    (hne : dv.idx ≠ []) (hord : d0 ≤ d1) :
    configurar_filtros dv escolhidas d0 d1 filtros =
      Except.ok ([],
        dropnaSpec (mascaraSpec filtros
          (locSlice (selectCols dv (selecaoEfetiva dv escolhidas)) d0 d1))) := by
  simp only [configurar_filtros]
  rw [if_neg (by simp [selectCols]; simpa using hne), if_neg (by omega),
    aplicarMascara_eq_spec, dropnaTotal_eq_spec]

/-- Witness for C3: the single-column monthly table `[+1, −1, 0]` with only
"Alta" active keeps exactly the `+1` row. -/
theorem C3_direction_filter_witness :
    configurar_filtros exVar [] 0 1000 ["Alta"] =
      Except.ok ([], ⟨[101], [("X", [some 1])]⟩) ∧
    dropnaSpec (mascaraSpec ["Alta"]
        (locSlice (selectCols exVar (selecaoEfetiva exVar [])) 0 1000)) =
      ⟨[101], [("X", [some 1])]⟩ := by
  have h := C3_direction_filter exVar [] 0 1000 ["Alta"] (by decide) (by decide)
  exact ⟨by rw [h]; decide, by decide⟩

/-! ## Claim C6 — no step mutates its input frame -/

/-- C6: no filtering or transformation step mutates its input table: the
post-call state of the argument frame recorded by the state-passing forms
equals the input.  For `calcular_variacao_mensal` the source does assign
`dados.index = pd.to_datetime(dados.index)` in place, but on the date-typed
index of a `PriceTable` the conversion is the identity, so the frame's
index, columns and values are left unchanged; the other three steps contain
no assignment to their argument. -/
theorem C6_no_mutation (dados dv : DF) (lista_acoes escolhidas lista : List String)
    (d0 d1 d2 d3 : Nat) (filtros : List String) (acaoUnica : Option String) :
    (calcular_variacao_mensal_est dados).1 = dados ∧
    (configurar_sidebar_est dados lista_acoes d0 d1).1 = dados ∧
    (configurar_filtros_est dv escolhidas d2 d3 filtros).1 = dv ∧
    (calcular_performance_est dados lista acaoUnica).1 = dados :=
  ⟨rfl, rfl, rfl, rfl⟩

/-! ## Claim C5 — empty symbol list: page_2 halts, page_1 crashes -/

/-- `configurar_sidebar` on a frame with an empty index raises while
computing the slider bounds (`index.min().to_pydatetime()`), whatever the
selection. -/
theorem configurar_sidebar_idx_vazio (dados : DF) (la : List String)
    (d0 d1 : Nat) (h : dados.idx = []) :
    configurar_sidebar dados la d0 d1 =
      Except.error "index.min().to_pydatetime() em índice vazio: a passada de renderização aborta" := by
  simp only [configurar_sidebar, selectCols, renameCol]
  by_cases he : la.isEmpty
  · simp [he, h]
  · by_cases h1 : la.length == 1 <;> simp [he, h1, h]

/-- C5 (on the failing input of the code bug): when the ticker file is
missing, `load_symbols` returns `[]`; page_2's `main` then halts cleanly
after the loader's error messages, but page_1's `main` — which has no such
guard, contrary to the loader's own comment "A verificação na função main()
impedirá a continuação" — proceeds into `configurar_sidebar` with an empty
frame and the render pass raises. -/
theorem C5_missing_file (resp : Resposta) (lista_acoes escolhidas filtros : List String)
    (d0 d1 d2 d3 : Nat) :
    page1_main none resp lista_acoes d0 d1 =
      Except.error "index.min().to_pydatetime() em índice vazio: a passada de renderização aborta" ∧
    page2_main none resp escolhidas d2 d3 filtros =
      Except.ok [UIMsg.error "Erro: O arquivo 'IBOV.csv' não foi encontrado.",
        UIMsg.info "Por favor, certifique-se de que o arquivo está na mesma pasta que o seu script Streamlit."] := by
  constructor
  · have hd : carregar_dados (carregar_tickers_acoes none).2 resp = ⟨[], []⟩ := rfl
    simp only [page1_main, hd,
      configurar_sidebar_idx_vazio ⟨[], []⟩ lista_acoes d0 d1 rfl]
  · rfl


/-! ## Claim C2 — monthly variation -/

theorem getLast?_cons_elim (a : α) (l : List α) :
    (a :: l).getLast? = (l.getLast?).elim (some a) some := by
  induction l generalizing a with
  | nil => rfl
  | cons b l ih =>
    rw [List.getLast?_cons_cons, ih b]
    cases hl : l.getLast? <;> simp

/-- The keep-the-last-non-missing fold computes the last element of the
filtered list. -/
theorem foldl_ultimo_some (l : List (Nat × Cell)) (acc : Cell) :
    l.foldl (fun a p => if p.2.isSome then p.2 else a) acc =
      ((l.filterMap Prod.snd).getLast?).elim acc some := by
  induction l generalizing acc with
  | nil => rfl
  | cons p l ih =>
    rw [List.foldl_cons, ih]
    cases hp : p.2 with
    | none => simp [List.filterMap_cons, hp]
    | some w =>
      simp only [List.filterMap_cons, hp, Option.isSome_some, if_true]
      rw [getLast?_cons_elim]
      cases hl : (l.filterMap Prod.snd).getLast? <;> simp

/-- The source's month-value fold equals the spec's "last available
observation of the month". -/
theorem ultimaNoMes_eq_spec (idx : List Nat) (v : List Cell) (k : Nat) :
    ultimaNoMes idx v k = ultimaDisponivelSpec idx v k := by
  unfold ultimaNoMes ultimaDisponivelSpec
  rw [foldl_ultimo_some]
  cases hl : (((idx.zip v).filter (fun p => mesDe p.1 == k)).filterMap Prod.snd).getLast? <;>
    simp

theorem pctChangeCol_getD_zero (l : List Cell) :
    (pctChangeCol l).getD 0 none = none := by
  cases l <;> rfl

theorem pctChangeCol_getD_succ (l : List Cell) (j : Nat) (h : j + 1 < l.length) :
    (pctChangeCol l).getD (j + 1) none =
      pctCell (l.getD j none) (l.getD (j + 1) none) := by
  cases l with
  | nil => simp at h
  | cons x t =>
    show (List.zipWith pctCell (x :: t) t).getD j none = _
    have hj : j < t.length := by simpa using h
    have hlen : j < (List.zipWith pctCell (x :: t) t).length := by
      rw [List.length_zipWith]
      simp
      omega
    rw [List.getD_eq_getElem _ _ hlen, List.getElem_zipWith]
    congr 1
    · rw [List.getD_eq_getElem _ _ (by simp; omega)]
    · rw [List.getD_eq_getElem _ _ (by simp; omega)]
      simp

/-- The rational pct-change cell equals the spec's restatement. -/
theorem pctCell_eq_variacaoSpec (a b : Cell) : pctCell a b = variacaoSpec a b := by
  cases a <;> cases b <;> simp [pctCell, variacaoSpec]

theorem calcular_variacao_mensal_def (df : DF) :
    calcular_variacao_mensal df =
      { idx := (resampleMensal df).idx,
        cols := (resampleMensal df).cols.map (fun c => (c.1, pctChangeCol c.2)) } := rfl

/-- C2: on a nonempty daily table the variation table has one row per
calendar month from the first to the last observed month, the same columns
in the same order, an all-missing first row, and — for every later month
`j` — each cell equal to the percentage change between that month's last
available observation and the immediately preceding month's, as restated by
`variacaoSpec` and `ultimaDisponivelSpec` (a month with zero observations
contributes a missing value). -/
theorem C2_monthly_variation (df : DF) (hne : df.idx ≠ []) :
    (calcular_variacao_mensal df).idx = (mesesDe df).map fimDeMes ∧
    (calcular_variacao_mensal df).nomes = df.nomes ∧
    (∀ c ∈ (calcular_variacao_mensal df).cols, c.2.getD 0 none = none) ∧
    (∀ i, i < df.cols.length → ∀ j, 1 ≤ j → j < (mesesDe df).length →
      ((calcular_variacao_mensal df).cols.getD i ("", [])).2.getD j none =
        variacaoSpec
          (ultimaDisponivelSpec df.idx ((df.cols.getD i ("", [])).2) (mesMin df + (j - 1)))
          (ultimaDisponivelSpec df.idx ((df.cols.getD i ("", [])).2) (mesMin df + j))) := by
  have hie : df.idx.isEmpty = false := by simpa using hne
  have hres : resampleMensal df =
      { idx := (mesesDe df).map fimDeMes,
        cols := df.cols.map (fun c => (c.1, (mesesDe df).map (ultimaNoMes df.idx c.2))) } := by
    unfold resampleMensal
    rw [hie]
    simp
  rw [calcular_variacao_mensal_def, hres]
  refine ⟨rfl, by simp [DF.nomes], ?_, ?_⟩
  · intro c hc
    rcases List.mem_map.mp hc with ⟨c', hc', rfl⟩
    exact pctChangeCol_getD_zero _
  · intro i hi j hj1 hj2
    obtain ⟨j', rfl⟩ : ∃ j', j = j' + 1 := ⟨j - 1, by omega⟩
    have hj2' : j' + 1 < mesMax df - mesMin df + 1 := by simpa [mesesDe] using hj2
    rw [getD_map_of_lt _ _ i ("", []) ("", []) (by simpa using hi)]
    rw [getD_map_of_lt _ _ i ("", []) ("", []) hi]
    set c0 := df.cols.getD i ("", []) with hc0
    show (pctChangeCol ((mesesDe df).map (ultimaNoMes df.idx c0.2))).getD (j' + 1) none = _
    have hlen : j' + 1 < ((mesesDe df).map (ultimaNoMes df.idx c0.2)).length := by
      simpa using hj2
    rw [pctChangeCol_getD_succ _ _ hlen]
    rw [getD_map_of_lt _ _ j' 0 none (by simp [mesesDe]; omega)]
    rw [getD_map_of_lt _ _ (j' + 1) 0 none (by simpa using hj2)]
    have hm1 : (mesesDe df).getD j' 0 = mesMin df + j' := by
      rw [List.getD_eq_getElem _ _ (by simp [mesesDe]; omega)]
      simp [mesesDe, List.getElem_range']
    have hm2 : (mesesDe df).getD (j' + 1) 0 = mesMin df + (j' + 1) := by
      rw [List.getD_eq_getElem _ _ (by simpa [mesesDe] using hj2)]
      simp [mesesDe, List.getElem_range']
    rw [hm1, hm2, ultimaNoMes_eq_spec, ultimaNoMes_eq_spec, pctCell_eq_variacaoSpec]
    simp

/-- Witness for C2: on `exDia` (January ending at 100, February at 110) the
January row is missing and the February variation is exactly `+10%`; on
`exGap` the empty February yields a missing month and both adjacent
variations are missing. -/
theorem C2_monthly_variation_witness :
    ((calcular_variacao_mensal exDia).idx = (mesesDe exDia).map fimDeMes ∧
      (calcular_variacao_mensal exDia).nomes = exDia.nomes ∧
      (∀ c ∈ (calcular_variacao_mensal exDia).cols, c.2.getD 0 none = none) ∧
      (∀ i, i < exDia.cols.length → ∀ j, 1 ≤ j → j < (mesesDe exDia).length →
        ((calcular_variacao_mensal exDia).cols.getD i ("", [])).2.getD j none =
          variacaoSpec
            (ultimaDisponivelSpec exDia.idx ((exDia.cols.getD i ("", [])).2) (mesMin exDia + (j - 1)))
            (ultimaDisponivelSpec exDia.idx ((exDia.cols.getD i ("", [])).2) (mesMin exDia + j)))) ∧
    calcular_variacao_mensal exDia =
      ⟨[20250131, 20250228], [("X", [none, some (1/10)])]⟩ ∧
    calcular_variacao_mensal exGap =
      ⟨[20250131, 20250228, 20250331], [("X", [none, none, none])]⟩ := by
  refine ⟨C2_monthly_variation exDia (by decide), ?_, ?_⟩
  · norm_num [calcular_variacao_mensal, calcular_variacao_mensal_est, resampleMensal, mesesDe,
      mesMin, mesMax, mesDe, fimDeMes, diasNoMes, ultimaNoMes, pctChangeCol, pctCell,
      pdToDatetime, DF.vazio, exDia, List.range']
  · norm_num [calcular_variacao_mensal, calcular_variacao_mensal_est, resampleMensal, mesesDe,
      mesMin, mesMax, mesDe, fimDeMes, diasNoMes, ultimaNoMes, pctChangeCol, pctCell,
      pdToDatetime, DF.vazio, exGap, List.range']


/-! ## Claim C10 — supporting lemmas -/

theorem range'_zero_getD (n i : Nat) (h : i < n) : (List.range' 0 n).getD i 0 = i := by
  rw [List.getD_eq_getElem _ _ (by simpa using h), List.getElem_range']
  simp

theorem pctChangeCol_length (l : List Cell) : (pctChangeCol l).length = l.length := by
  cases l with
  | nil => rfl
  | cons x t =>
    simp [pctChangeCol, List.length_zipWith]

theorem resampleMensal_WF (df : DF) : (resampleMensal df).WF := by
  unfold resampleMensal
  split
  · intro c hc
    simp [DF.vazio] at hc
  · intro c hc
    rcases List.mem_map.mp hc with ⟨c0, hc0, rfl⟩
    simp

theorem variacao_WF (df : DF) : (calcular_variacao_mensal df).WF := by
  rw [calcular_variacao_mensal_def]
  intro c hc
  rcases List.mem_map.mp hc with ⟨c0, hc0, rfl⟩
  simpa [pctChangeCol_length] using resampleMensal_WF df c0 hc0

theorem selectCols_WF (df : DF) (ns : List String) (hwf : df.WF) :
    (selectCols df ns).WF := by
  intro c hc
  rcases List.mem_filterMap.mp hc with ⟨n, hn, hfm⟩
  rcases Option.map_eq_some'.mp hfm with ⟨c0, hfind, rfl⟩
  simpa using hwf c0 (List.mem_of_find?_eq_some hfind)

theorem locSlice_WF (df : DF) (a b : Nat) (hwf : df.WF) : (locSlice df a b).WF := by
  intro c hc
  rcases List.mem_map.mp hc with ⟨c0, hc0, rfl⟩
  show (filterByKeep _ c0.2).length = (filterByKeep _ df.idx).length
  rw [filterByKeep_eq_map _ c0.2 none (by simp [hwf c0 hc0]),
    filterByKeep_eq_map _ df.idx 0 (by simp), List.length_map, List.length_map]

theorem aplicarMascara_WF (filtros : List String) (df : DF) (hwf : df.WF) :
    (aplicarMascara filtros df).WF := by
  unfold aplicarMascara
  split
  · exact hwf
  · intro c hc
    rcases List.mem_map.mp hc with ⟨c0, hc0, rfl⟩
    simpa using hwf c0 hc0

theorem mascaraCell_isSome (filtros : List String) (x : Cell)
    (h : (mascaraCell filtros x).isSome = true) : x.isSome = true := by
  unfold mascaraCell at h
  split at h
  · exact h
  · simp at h

theorem diasNoMes_le (y m : Nat) : diasNoMes y m ≤ 31 := by
  unfold diasNoMes
  split
  · split <;> omega
  · split <;> omega

theorem diasNoMes_pos (y m : Nat) : 28 ≤ diasNoMes y m := by
  unfold diasNoMes
  split
  · split <;> omega
  · split <;> omega

/-- Decoding a month-end date recovers its month: `fimDeMes` is injective,
so the resampled month rows are pairwise distinct. -/
theorem mesDe_fimDeMes (k : Nat) : mesDe (fimDeMes k) = k := by
  have hdl := diasNoMes_le (k / 12) (k % 12 + 1)
  have hdp := diasNoMes_pos (k / 12) (k % 12 + 1)
  unfold mesDe fimDeMes
  omega

theorem nodup_getD_inj (l : List Nat) (hnd : l.Nodup) (i j d : Nat)
    (hi : i < l.length) (hj : j < l.length) (h : l.getD i d = l.getD j d) :
    i = j := by
  rw [List.getD_eq_getElem _ _ hi, List.getD_eq_getElem _ _ hj] at h
  exact hnd.getElem_inj_iff.mp h


theorem dropnaTotal_idx (df : DF) :
    (dropnaTotal df).idx =
      filterByKeep ((List.range' 0 df.idx.length).map (filaTemDado df.cols)) df.idx := rfl

theorem dropnaTotal_cols (df : DF) :
    (dropnaTotal df).cols = df.cols.map (fun c =>
      (c.1, filterByKeep ((List.range' 0 df.idx.length).map (filaTemDado df.cols)) c.2)) := rfl

/-- Each kept row of `dropna(how='all')` corresponds to an original row
position `j` that has some non-missing value; the row label and every
column's cell carry over from `j`. -/
theorem dropnaTotal_pos (df : DF) (hwf : df.WF) (i : Nat)
    (hi : i < (dropnaTotal df).idx.length) :
    ∃ j, j < df.idx.length ∧
      (dropnaTotal df).idx.getD i 0 = df.idx.getD j 0 ∧
      filaTemDado df.cols j = true ∧
      ∀ c ∈ df.cols,
        (filterByKeep ((List.range' 0 df.idx.length).map (filaTemDado df.cols)) c.2).getD i none =
          c.2.getD j none := by
  have hkl : ((List.range' 0 df.idx.length).map (filaTemDado df.cols)).length =
      df.idx.length := by simp
  have hidx : (dropnaTotal df).idx =
      (keptPositions ((List.range' 0 df.idx.length).map (filaTemDado df.cols))).map
        (fun j => df.idx.getD j 0) := by
    rw [dropnaTotal_idx]
    exact filterByKeep_eq_map _ df.idx 0 hkl
  have hi' : i < (keptPositions ((List.range' 0 df.idx.length).map (filaTemDado df.cols))).length := by
    rw [hidx, List.length_map] at hi
    exact hi
  refine ⟨(keptPositions ((List.range' 0 df.idx.length).map (filaTemDado df.cols))).getD i 0,
    ?_, ?_, ?_, ?_⟩
  · have := keptPositions_lt _ _ (getD_mem_of_lt _ i 0 hi')
    rwa [hkl] at this
  · rw [hidx]
    exact getD_map_of_lt _ _ i 0 0 hi'
  · have hjlt : (keptPositions ((List.range' 0 df.idx.length).map (filaTemDado df.cols))).getD i 0 <
        df.idx.length := by
      have := keptPositions_lt _ _ (getD_mem_of_lt _ i 0 hi')
      rwa [hkl] at this
    have h1 := keptPositions_true _ _ (getD_mem_of_lt _ i 0 hi')
    rwa [getD_map_of_lt (filaTemDado df.cols) _ _ 0 false (by simpa using hjlt),
      range'_zero_getD _ _ hjlt] at h1
  · intro c hc
    have hcl : ((List.range' 0 df.idx.length).map (filaTemDado df.cols)).length = c.2.length := by
      rw [hkl]
      exact (hwf c hc).symm
    rw [filterByKeep_eq_map _ c.2 none hcl]
    exact getD_map_of_lt _ _ i 0 none hi'

/-- C10's invariant on the dropping stage itself: every kept row still has
at least one non-missing value. -/
theorem dropnaTotal_filas (df : DF) (hwf : df.WF) (i : Nat)
    (hi : i < (dropnaTotal df).idx.length) :
    filaTemDado (dropnaTotal df).cols i = true := by
  rcases dropnaTotal_pos df hwf i hi with ⟨j, hjlt, _, hfila, hcells⟩
  rcases List.any_eq_true.mp hfila with ⟨c, hc, hcs⟩
  apply List.any_eq_true.mpr
  refine ⟨(c.1, filterByKeep ((List.range' 0 df.idx.length).map (filaTemDado df.cols)) c.2),
    ?_, ?_⟩
  · rw [dropnaTotal_cols]
    exact List.mem_map.mpr ⟨c, hc, rfl⟩
  · show ((filterByKeep _ c.2).getD i none).isSome = true
    rw [hcells c hc]
    simpa using hcs

/-- A row label kept by the dropping stage had a non-missing value in the
input frame. -/
theorem mem_dropnaTotal_temDado (df : DF) (hwf : df.WF) (dte : Nat)
    (h : dte ∈ (dropnaTotal df).idx) : df.temDadoEm dte := by
  rcases List.getElem_of_mem h with ⟨i, hi, hieq⟩
  rcases dropnaTotal_pos df hwf i hi with ⟨j, hjlt, hlabel, hfila, hcells⟩
  rcases List.any_eq_true.mp hfila with ⟨c, hc, hcs⟩
  refine ⟨c, hc, j, hjlt, ?_, by simpa using hcs⟩
  rw [← hlabel, List.getD_eq_getElem _ _ hi, hieq]

/-- Backward preservation of row data through the masking stage. -/
theorem aplicarMascara_temDado (filtros : List String) (df : DF) (dte : Nat)
    (h : (aplicarMascara filtros df).temDadoEm dte) : df.temDadoEm dte := by
  revert h
  unfold aplicarMascara
  split
  · exact id
  · rintro ⟨c, hc, j, hj, hdte, hsome⟩
    rcases List.mem_map.mp hc with ⟨c0, hc0, rfl⟩
    have hsome' : ((List.map (mascaraCell filtros) c0.2).getD j none).isSome = true := hsome
    refine ⟨c0, hc0, j, hj, hdte, ?_⟩
    by_cases hjl : j < c0.2.length
    · rw [getD_map_of_lt _ _ j none none hjl] at hsome'
      exact mascaraCell_isSome filtros _ hsome'
    · have hle : (List.map (mascaraCell filtros) c0.2).length ≤ j := by
        simpa using Nat.le_of_not_lt hjl
      rw [getD_of_le _ _ _ hle] at hsome'
      simp at hsome'

/-- Backward preservation of row data through the date slicing stage. -/
theorem locSlice_temDado (df : DF) (a b : Nat) (hwf : df.WF) (dte : Nat)
    (h : (locSlice df a b).temDadoEm dte) : df.temDadoEm dte := by
  rcases h with ⟨c, hc, i, hi, hdte, hsome⟩
  rcases List.mem_map.mp hc with ⟨c0, hc0, rfl⟩
  have hkl : (df.idx.map (fun d => decide (a ≤ d) && decide (d ≤ b))).length =
      df.idx.length := by simp
  have hidx : (locSlice df a b).idx =
      (keptPositions (df.idx.map (fun d => decide (a ≤ d) && decide (d ≤ b)))).map
        (fun j => df.idx.getD j 0) :=
    filterByKeep_eq_map _ df.idx 0 hkl
  have hi' : i < (keptPositions (df.idx.map (fun d => decide (a ≤ d) && decide (d ≤ b)))).length := by
    rw [hidx, List.length_map] at hi
    exact hi
  have hjlt : (keptPositions (df.idx.map (fun d => decide (a ≤ d) && decide (d ≤ b)))).getD i 0 <
      df.idx.length := by
    have := keptPositions_lt _ _ (getD_mem_of_lt _ i 0 hi')
    rwa [hkl] at this
  refine ⟨c0, hc0, _, hjlt, ?_, ?_⟩
  · rw [hidx, getD_map_of_lt (fun j => df.idx.getD j 0) _ i 0 0 hi'] at hdte
    exact hdte
  · have hsome' : ((filterByKeep (df.idx.map (fun d => decide (a ≤ d) && decide (d ≤ b))) c0.2).getD i none).isSome = true := hsome
    have hcl : (df.idx.map (fun d => decide (a ≤ d) && decide (d ≤ b))).length = c0.2.length := by
      rw [hkl]
      exact (hwf c0 hc0).symm
    rw [filterByKeep_eq_map _ c0.2 none hcl,
      getD_map_of_lt (fun j => c0.2.getD j none) _ i 0 none hi'] at hsome'
    exact hsome'

/-- Backward preservation of row data through column selection. -/
theorem selectCols_temDado (df : DF) (ns : List String) (dte : Nat)
    (h : (selectCols df ns).temDadoEm dte) : df.temDadoEm dte := by
  rcases h with ⟨c, hc, j, hj, hdte, hsome⟩
  rcases List.mem_filterMap.mp hc with ⟨n, hn, hfm⟩
  rcases Option.map_eq_some'.mp hfm with ⟨c0, hfind, rfl⟩
  exact ⟨c0, List.mem_of_find?_eq_some hfind, j, by simpa using hj, hdte, hsome⟩


/-- The first row of the variation table is all-missing: no data can be
attributed to the first month-end label. -/
theorem variacao_first_sem_dado (df : DF) (hne : df.idx ≠ []) :
    ¬ (calcular_variacao_mensal df).temDadoEm
      ((calcular_variacao_mensal df).idx.headD 0) := by
  have hie : df.idx.isEmpty = false := by simpa using hne
  have hres : resampleMensal df =
      { idx := (mesesDe df).map fimDeMes,
        cols := df.cols.map (fun c => (c.1, (mesesDe df).map (ultimaNoMes df.idx c.2))) } := by
    unfold resampleMensal
    rw [hie]
    simp
  have hv : calcular_variacao_mensal df =
      { idx := (mesesDe df).map fimDeMes,
        cols := (df.cols.map (fun c => (c.1, (mesesDe df).map (ultimaNoMes df.idx c.2)))).map
          (fun c => (c.1, pctChangeCol c.2)) } := by
    rw [calcular_variacao_mensal_def, hres]
  rw [hv]
  rintro ⟨c, hc, j, hj, hdte, hsome⟩
  rcases List.mem_map.mp hc with ⟨c1, hc1, rfl⟩
  have hlen : 0 < ((mesesDe df).map fimDeMes).length := by
    simp [mesesDe]
  have hnodup : ((mesesDe df).map fimDeMes).Nodup := by
    refine List.Nodup.map ?_ (List.nodup_range' _ _)
    intro a b hab
    have h2 := congrArg mesDe hab
    rwa [mesDe_fimDeMes, mesDe_fimDeMes] at h2
  have hhead : ((mesesDe df).map fimDeMes).headD 0 = ((mesesDe df).map fimDeMes).getD 0 0 := by
    rcases hml : (mesesDe df).map fimDeMes with _ | ⟨a, t⟩
    · rw [hml] at hlen
      simp at hlen
    · rfl
  have hj' : j < ((mesesDe df).map fimDeMes).length := hj
  have hdte' : ((mesesDe df).map fimDeMes).getD j 0 = ((mesesDe df).map fimDeMes).headD 0 := hdte
  have hj0 : j = 0 := nodup_getD_inj _ hnodup j 0 0 hj' hlen (by rw [hdte', hhead])
  subst hj0
  have hsome' : ((pctChangeCol c1.2).getD 0 none).isSome = true := hsome
  rw [pctChangeCol_getD_zero] at hsome'
  simp at hsome'

/-- C10: the table returned by `select_monthly` never contains a row whose
values are all missing — every returned row keeps at least one non-missing
cell — and in particular the variation table's first month row, which is
always all-missing by construction, never appears in the returned table,
whatever direction filters (including none) are selected. -/
theorem C10_no_all_missing (dv daily : DF) (escolhidas esc2 : List String)
    (d0 d1 d2 d3 : Nat) (filtros fil2 : List String) (ms ms2 : List UIMsg)
    (res res2 : DF) :
    (dv.WF → configurar_filtros dv escolhidas d0 d1 filtros = Except.ok (ms, res) →
      ∀ i, i < res.idx.length → filaTemDado res.cols i = true) ∧
    (daily.idx ≠ [] →
      configurar_filtros (calcular_variacao_mensal daily) esc2 d2 d3 fil2 =
        Except.ok (ms2, res2) →
      (calcular_variacao_mensal daily).idx.headD 0 ∉ res2.idx) := by
  constructor
  · intro hwf hok i hi
    simp only [configurar_filtros] at hok
    split at hok
    · exact absurd hok (by simp)
    · split at hok
      · simp only [Except.ok.injEq, Prod.mk.injEq] at hok
        obtain ⟨-, hres⟩ := hok
        subst hres
        simp [DF.vazio] at hi
      · simp only [Except.ok.injEq, Prod.mk.injEq] at hok
        obtain ⟨-, hres⟩ := hok
        subst hres
        exact dropnaTotal_filas _
          (aplicarMascara_WF _ _ (locSlice_WF _ _ _ (selectCols_WF _ _ hwf))) i hi
  · intro hne hok hmem
    simp only [configurar_filtros] at hok
    split at hok
    · exact absurd hok (by simp)
    · split at hok
      · simp only [Except.ok.injEq, Prod.mk.injEq] at hok
        obtain ⟨-, hres⟩ := hok
        subst hres
        simp [DF.vazio] at hmem
      · simp only [Except.ok.injEq, Prod.mk.injEq] at hok
        obtain ⟨-, hres⟩ := hok
        subst hres
        have h1 := mem_dropnaTotal_temDado _
          (aplicarMascara_WF _ _
            (locSlice_WF _ _ _ (selectCols_WF _ _ (variacao_WF daily)))) _ hmem
        have h2 := aplicarMascara_temDado _ _ _ h1
        have h3 := locSlice_temDado _ _ _ (selectCols_WF _ _ (variacao_WF daily)) _ h2
        have h4 := selectCols_temDado _ _ _ h3
        exact variacao_first_sem_dado daily hne h4

/-- Witness for C10 at the concrete pipeline `exDia2`: the filter pass with
zero direction filters drops the all-missing January row; the returned
single February row has data, and the first month-end label is absent. -/
theorem C10_no_all_missing_witness :
    (∀ i, i < (⟨[20250228], [("X", [some 1])]⟩ : DF).idx.length →
      filaTemDado (⟨[20250228], [("X", [some 1])]⟩ : DF).cols i = true) ∧
    (calcular_variacao_mensal exDia2).idx.headD 0 ∉
      (⟨[20250228], [("X", [some 1])]⟩ : DF).idx := by
  have hvar : calcular_variacao_mensal exDia2 =
      ⟨[20250131, 20250228], [("X", [none, some 1])]⟩ := by
    norm_num [calcular_variacao_mensal, calcular_variacao_mensal_est, resampleMensal, mesesDe,
      mesMin, mesMax, mesDe, fimDeMes, diasNoMes, ultimaNoMes, pctChangeCol, pctCell,
      pdToDatetime, DF.vazio, exDia2, List.range']
  have hcf : configurar_filtros (calcular_variacao_mensal exDia2) [] 0 30000000 [] =
      Except.ok ([], ⟨[20250228], [("X", [some 1])]⟩) := by
    rw [hvar]
    decide
  have hwf : (calcular_variacao_mensal exDia2).WF := by
    rw [hvar]
    decide
  have h := C10_no_all_missing (calcular_variacao_mensal exDia2) exDia2 [] [] 0 30000000 0
    30000000 [] [] [] [] ⟨[20250228], [("X", [some 1])]⟩ ⟨[20250228], [("X", [some 1])]⟩
  exact ⟨h.1 hwf hcf, h.2 (by decide) hcf⟩


end ProjetoStreamlit
